import Mathlib

/-!
Verification of the Build-Smart concrete-material estimation engine.

The engine lives in `src/server/estimator.ts` (authoritative) and is
duplicated in `src/client/src/lib/estimator.ts` (preview).  Numbers are
modelled as exact rationals; JavaScript's `parseFloat(x.toFixed(n))`
output rounding is modelled by `roundTo n` (round to `n` decimal places,
ties away from the smaller value, matching round-half-up on the decimal
expansion), and `Math.ceil` by the integer ceiling on rationals.
Fallible code is modelled with `Except String`.
-/

set_option maxRecDepth 4000

/-- Mix ratio record: relative parts by volume (field names as in `@shared/schema`). -/
structure MixRatio where
  cement : ℚ
  sand : ℚ
  agg : ℚ
deriving DecidableEq, Repr

/-- Densities record in kg per cubic metre. -/
structure Densities where
  cement : ℚ
  sand : ℚ
  agg : ℚ
deriving DecidableEq, Repr

/-- Input record `EstimationInput`: `densities`, `dryFactor`, `wastageFactor` are optional,
defaulted inside `estimateMaterials` by the destructuring defaults. -/
structure EstimationInput where
  volumeM3 : ℚ
  mixRatio : MixRatio
  densities : Option Densities
  dryFactor : Option ℚ
  wastageFactor : Option ℚ
deriving DecidableEq, Repr

/-- Per-material slice of the result.  `bags` is present only for cement. -/
structure MaterialResult where
  volume : ℚ
  mass : ℚ
  bags : Option ℤ
  tonnes : ℚ
deriving DecidableEq, Repr

/-- The `totals` sub-record of an `EstimationResult`. -/
structure TotalsResult where
  volume : ℚ
  mass : ℚ
  estimatedCost : ℚ
deriving DecidableEq, Repr

/-- Full result of `estimateMaterials`, echoing the input as `parameters`. -/
structure EstimationResult where
  cement : MaterialResult
  sand : MaterialResult
  aggregate : MaterialResult
  totals : TotalsResult
  parameters : EstimationInput
deriving DecidableEq, Repr

deriving instance DecidableEq for Except

/-- Default material densities (kg/m³), `DEFAULT_DENSITIES` in both estimator files. -/
def DEFAULT_DENSITIES : Densities :=
  { cement := 1440, sand := 1600, agg := 1750 }

/-- Cost table record for `DEFAULT_MATERIAL_COSTS`. -/
structure MaterialCosts where
  cement : ℚ
  sand : ℚ
  agg : ℚ
deriving DecidableEq, Repr

/-- Default material costs (USD per unit), `DEFAULT_MATERIAL_COSTS` in both estimator
files: 10 per 50kg cement bag, 50 per tonne of sand, 35 per tonne of aggregate. -/
def DEFAULT_MATERIAL_COSTS : MaterialCosts :=
  { cement := 10, sand := 50, agg := 35 }

/-- Model of `parseFloat(x.toFixed(n))`: round to `n` decimal places. -/
def roundTo (n : ℕ) (x : ℚ) : ℚ :=
  ((round (x * 10 ^ n) : ℤ) : ℚ) / 10 ^ n

/-- Destructuring default `densities = DEFAULT_DENSITIES`. -/
def densitiesOf (i : EstimationInput) : Densities :=
  i.densities.getD DEFAULT_DENSITIES

/-- Destructuring default `dryFactor = 1.54`. -/
def dryFactorOf (i : EstimationInput) : ℚ :=
  i.dryFactor.getD (154 / 100)

/-- Destructuring default `wastageFactor = 5.0`. -/
def wastageFactorOf (i : EstimationInput) : ℚ :=
  i.wastageFactor.getD 5

/-- Step 1: `S = pCement + pSand + pAgg`. -/
def totalParts (i : EstimationInput) : ℚ :=
  i.mixRatio.cement + i.mixRatio.sand + i.mixRatio.agg

/-- Step 2: `adjustedVolume = volumeM3 * dryFactor`. -/
def adjustedVolume (i : EstimationInput) : ℚ :=
  i.volumeM3 * dryFactorOf i

/-- Step 3: `cementVolume = (pCement / S) * adjustedVolume`. -/
def cementVolume (i : EstimationInput) : ℚ :=
  (i.mixRatio.cement / totalParts i) * adjustedVolume i

/-- Step 3: `sandVolume = (pSand / S) * adjustedVolume`. -/
def sandVolume (i : EstimationInput) : ℚ :=
  (i.mixRatio.sand / totalParts i) * adjustedVolume i

/-- Step 3: `aggVolume = (pAgg / S) * adjustedVolume`. -/
def aggVolume (i : EstimationInput) : ℚ :=
  (i.mixRatio.agg / totalParts i) * adjustedVolume i

/-- Step 4: `cementMass = cementVolume * densities.cement`. -/
def cementMass (i : EstimationInput) : ℚ :=
  cementVolume i * (densitiesOf i).cement

/-- Step 4: `sandMass = sandVolume * densities.sand`. -/
def sandMass (i : EstimationInput) : ℚ :=
  sandVolume i * (densitiesOf i).sand

/-- Step 4: `aggMass = aggVolume * densities.agg`. -/
def aggMass (i : EstimationInput) : ℚ :=
  aggVolume i * (densitiesOf i).agg

/-- Step 5: `wastageMultiplier = 1 + wastageFactor / 100`. -/
def wastageMultiplier (i : EstimationInput) : ℚ :=
  1 + wastageFactorOf i / 100

/-- Step 5: `cementMassWithWastage = cementMass * wastageMultiplier`. -/
def cementMassWithWastage (i : EstimationInput) : ℚ :=
  cementMass i * wastageMultiplier i

/-- Step 5: `sandMassWithWastage = sandMass * wastageMultiplier`. -/
def sandMassWithWastage (i : EstimationInput) : ℚ :=
  sandMass i * wastageMultiplier i

/-- Step 5: `aggMassWithWastage = aggMass * wastageMultiplier`. -/
def aggMassWithWastage (i : EstimationInput) : ℚ :=
  aggMass i * wastageMultiplier i

/-- Step 6: `cementBags = Math.ceil(cementMassWithWastage / 50)`. -/
def cementBags (i : EstimationInput) : ℤ :=
  ⌈cementMassWithWastage i / 50⌉

/-- Step 6: `cementTonnes = cementMassWithWastage / 1000`. -/
def cementTonnes (i : EstimationInput) : ℚ :=
  cementMassWithWastage i / 1000

/-- Step 6: `sandTonnes = sandMassWithWastage / 1000`. -/
def sandTonnes (i : EstimationInput) : ℚ :=
  sandMassWithWastage i / 1000

/-- Step 6: `aggTonnes = aggMassWithWastage / 1000`. -/
def aggTonnes (i : EstimationInput) : ℚ :=
  aggMassWithWastage i / 1000

/-- Step 7: `cementCost = cementBags * DEFAULT_MATERIAL_COSTS.cement`. -/
def cementCost (i : EstimationInput) : ℚ :=
  (cementBags i : ℚ) * DEFAULT_MATERIAL_COSTS.cement

/-- Step 7: `sandCost = sandTonnes * DEFAULT_MATERIAL_COSTS.sand`. -/
def sandCost (i : EstimationInput) : ℚ :=
  sandTonnes i * DEFAULT_MATERIAL_COSTS.sand

/-- Step 7: `aggCost = aggTonnes * DEFAULT_MATERIAL_COSTS.agg`. -/
def aggCost (i : EstimationInput) : ℚ :=
  aggTonnes i * DEFAULT_MATERIAL_COSTS.agg

/-- Step 7: `totalCost = cementCost + sandCost + aggCost`. -/
def totalCost (i : EstimationInput) : ℚ :=
  cementCost i + sandCost i + aggCost i

/-- Step 8, result assembly: output rounding only (volumes to 6 decimals,
masses and costs to 2, tonnes to 3).  Shared verbatim between the server and
client implementations. -/
def assembleResult (i : EstimationInput) : EstimationResult :=
  { cement :=
      { volume := roundTo 6 (cementVolume i)
      , mass := roundTo 2 (cementMassWithWastage i)
      , bags := some (cementBags i)
      , tonnes := roundTo 3 (cementTonnes i) }
  , sand :=
      { volume := roundTo 6 (sandVolume i)
      , mass := roundTo 2 (sandMassWithWastage i)
      , bags := none
      , tonnes := roundTo 3 (sandTonnes i) }
  , aggregate :=
      { volume := roundTo 6 (aggVolume i)
      , mass := roundTo 2 (aggMassWithWastage i)
      , bags := none
      , tonnes := roundTo 3 (aggTonnes i) }
  , totals :=
      { volume := roundTo 6 (adjustedVolume i)
      , mass := roundTo 2 (cementMassWithWastage i + sandMassWithWastage i + aggMassWithWastage i)
      , estimatedCost := roundTo 2 (totalCost i) }
  , parameters := i }

/-- Server-side `estimateMaterials` (src/server/estimator.ts): validates volume,
mix-ratio parts and densities before computing. -/
def estimateMaterials (i : EstimationInput) : Except String EstimationResult :=
  if i.volumeM3 ≤ 0 then
    .error "Volume must be greater than 0"
  else if i.mixRatio.cement ≤ 0 ∨ i.mixRatio.sand ≤ 0 ∨ i.mixRatio.agg ≤ 0 then
    .error "All mix ratio parts must be greater than 0"
  else if (densitiesOf i).cement ≤ 0 ∨ (densitiesOf i).sand ≤ 0 ∨ (densitiesOf i).agg ≤ 0 then
    .error "All densities must be greater than 0"
  else
    .ok (assembleResult i)

/-- Client-side `estimateMaterials` (src/client/src/lib/estimator.ts): same
computation steps verbatim, but its input validation stops after the mix-ratio
check — it has no density guard. -/
def clientEstimateMaterials (i : EstimationInput) : Except String EstimationResult :=
  if i.volumeM3 ≤ 0 then
    .error "Volume must be greater than 0"
  else if i.mixRatio.cement ≤ 0 ∨ i.mixRatio.sand ≤ 0 ∨ i.mixRatio.agg ≤ 0 then
    .error "All mix ratio parts must be greater than 0"
  else
    .ok (assembleResult i)

/-- The exact complement of the server engine's defensive guards. -/
def ValidInput (i : EstimationInput) : Prop :=
  0 < i.volumeM3 ∧
  0 < i.mixRatio.cement ∧ 0 < i.mixRatio.sand ∧ 0 < i.mixRatio.agg ∧
  0 < (densitiesOf i).cement ∧ 0 < (densitiesOf i).sand ∧ 0 < (densitiesOf i).agg

instance (i : EstimationInput) : Decidable (ValidInput i) := by
  unfold ValidInput; infer_instance

/-- The worked example input of the spec: 100 m³ of a 1:2:4 mix with the
standard densities, dry factor 1.54 and 5% wastage. -/
def exampleInput : EstimationInput :=
  { volumeM3 := 100
  , mixRatio := { cement := 1, sand := 2, agg := 4 }
  , densities := some { cement := 1440, sand := 1600, agg := 1750 }
  , dryFactor := some (154 / 100)
  , wastageFactor := some 5 }

/-- Partial mix ratio as it may arrive at the validator (any field may be absent). -/
structure PartialMixRatio where
  cement : Option ℚ
  sand : Option ℚ
  agg : Option ℚ
deriving DecidableEq, Repr

/-- Partial densities as they may arrive at the validator. -/
structure PartialDensities where
  cement : Option ℚ
  sand : Option ℚ
  agg : Option ℚ
deriving DecidableEq, Repr

/-- Shape `Partial<EstimationInput>` as consumed by `validateEstimationInput`. -/
structure PartialEstimationInput where
  volumeM3 : Option ℚ
  mixRatio : Option PartialMixRatio
  densities : Option PartialDensities
  dryFactor : Option ℚ
  wastageFactor : Option ℚ
deriving DecidableEq, Repr

/-- Server-side `validateEstimationInput` (src/server/estimator.ts, lines 122-158).
JavaScript truthiness is modelled exactly: a guard `!x || x <= 0` fires on an
absent field, on the value `0`, and on non-positive values, while a guard
`x && x <= 0` (densities) and `x && (...)` (dryFactor, wastageFactor) is
skipped entirely when the field is absent or exactly `0`, because `0` is falsy. -/
def validateEstimationInput (input : PartialEstimationInput) : List String :=
  (match input.volumeM3 with
    | none => ["Volume must be a positive number"]
    | some x => if x = 0 ∨ x ≤ 0 then ["Volume must be a positive number"] else [])
  ++ (match input.volumeM3 with
    | none => []
    | some x =>
      if x ≠ 0 ∧ x < 1 / 100 then
        ["Volume is very small (< 0.01 m³). Please verify the input"]
      else [])
  ++ (match input.mixRatio with
    | none => ["Mix ratio is required"]
    | some m =>
      (match m.cement with
        | none => ["Cement ratio must be positive"]
        | some x => if x = 0 ∨ x ≤ 0 then ["Cement ratio must be positive"] else [])
      ++ (match m.sand with
        | none => ["Sand ratio must be positive"]
        | some x => if x = 0 ∨ x ≤ 0 then ["Sand ratio must be positive"] else [])
      ++ (match m.agg with
        | none => ["Aggregate ratio must be positive"]
        | some x => if x = 0 ∨ x ≤ 0 then ["Aggregate ratio must be positive"] else []))
  ++ (match input.densities with
    | none => []
    | some d =>
      (match d.cement with
        | none => []
        | some x => if x ≠ 0 ∧ x ≤ 0 then ["Cement density must be positive"] else [])
      ++ (match d.sand with
        | none => []
        | some x => if x ≠ 0 ∧ x ≤ 0 then ["Sand density must be positive"] else [])
      ++ (match d.agg with
        | none => []
        | some x => if x ≠ 0 ∧ x ≤ 0 then ["Aggregate density must be positive"] else []))
  ++ (match input.dryFactor with
    | none => []
    | some x =>
      if x ≠ 0 ∧ (x ≤ 0 ∨ x > 3) then ["Dry factor must be between 0 and 3"] else [])
  ++ (match input.wastageFactor with
    | none => []
    | some x =>
      if x ≠ 0 ∧ (x < 0 ∨ x > 50) then ["Wastage factor must be between 0% and 50%"] else [])

/-- Server-side `getPresetMixRatios` (src/server/estimator.ts, lines 163-170).
Each call constructs a fresh object literal; the `Unit` argument stands for
one call, so call-independence is `∀ u v, getPresetMixRatios u = getPresetMixRatios v`. -/
def getPresetMixRatios (_ : Unit) : List (String × MixRatio) :=
  [ ("C20/25", { cement := 1, sand := 2, agg := 4 })
  , ("C25/30", { cement := 1, sand := 3 / 2, agg := 3 })
  , ("C30/37", { cement := 1, sand := 6 / 5, agg := 12 / 5 })
  , ("C35/45", { cement := 1, sand := 1, agg := 2 }) ]

/-- Client-side `getPresetMixRatios` (src/client/src/lib/estimator.ts, lines 123-130),
textually identical to the server registry. -/
def clientGetPresetMixRatios (_ : Unit) : List (String × MixRatio) :=
  [ ("C20/25", { cement := 1, sand := 2, agg := 4 })
  , ("C25/30", { cement := 1, sand := 3 / 2, agg := 3 })
  , ("C30/37", { cement := 1, sand := 6 / 5, agg := 12 / 5 })
  , ("C35/45", { cement := 1, sand := 1, agg := 2 }) ]

/-- An input with a non-positive supplied density: the server engine rejects it,
the client preview computes a result from it. -/
def divergingInput : EstimationInput :=
  { volumeM3 := 1
  , mixRatio := { cement := 1, sand := 1, agg := 1 }
  , densities := some { cement := -1, sand := 1, agg := 1 }
  , dryFactor := some 1
  , wastageFactor := some 0 }

/-- A second input with a zero supplied density, used against the client engine. -/
def clientDensityInput : EstimationInput :=
  { volumeM3 := 2
  , mixRatio := { cement := 1, sand := 2, agg := 4 }
  , densities := some { cement := 0, sand := 1600, agg := 1750 }
  , dryFactor := some 1
  , wastageFactor := some 0 }

/-- Input whose wastage-inclusive cement mass is exactly 50 kg (one full bag):
cement volume is (1/3)·(1/10) m³ and density 1500 kg/m³. -/
def boundaryInput : EstimationInput :=
  { volumeM3 := 1 / 10
  , mixRatio := { cement := 1, sand := 1, agg := 1 }
  , densities := some { cement := 1500, sand := 1500, agg := 1500 }
  , dryFactor := some 1
  , wastageFactor := some 0 }

/-- Wastage 0%: every raw material mass is exactly 1 kg. -/
def wInputA : EstimationInput :=
  { volumeM3 := 1 / 500
  , mixRatio := { cement := 1, sand := 1, agg := 1 }
  , densities := some { cement := 1500, sand := 1500, agg := 1500 }
  , dryFactor := some 1
  , wastageFactor := some 0 }

/-- Wastage 0.1%: raw material masses become 1.001 kg, which still rounds to
1.00 kg at the output precision of two decimals. -/
def wInputB : EstimationInput :=
  { volumeM3 := 1 / 500
  , mixRatio := { cement := 1, sand := 1, agg := 1 }
  , densities := some { cement := 1500, sand := 1500, agg := 1500 }
  , dryFactor := some 1
  , wastageFactor := some (1 / 10) }

/-- Partial input whose supplied cement density and dry factor are exactly `0`:
both violate the documented ranges, yet every truthiness-guarded check skips them. -/
def c8Input : PartialEstimationInput :=
  { volumeM3 := some 1
  , mixRatio := some { cement := some 1, sand := some 2, agg := some 4 }
  , densities := some { cement := some 0, sand := some 1600, agg := some 1750 }
  , dryFactor := some 0
  , wastageFactor := none }

/-- The same offending values as `c8Input`, shaped as a full engine input. -/
def c8EngineInput : EstimationInput :=
  { volumeM3 := 1
  , mixRatio := { cement := 1, sand := 2, agg := 4 }
  , densities := some { cement := 0, sand := 1600, agg := 1750 }
  , dryFactor := some 0
  , wastageFactor := none }

/-- Computation rule for `roundTo`: if `z` is the integer nearest to `x·10^n`
(half rounding up), the rounded value is `z / 10^n`. -/
theorem roundTo_eq_div (n : ℕ) (x : ℚ) (z : ℤ)
    (hle : (z : ℚ) ≤ x * 10 ^ n + 1 / 2) (hlt : x * 10 ^ n + 1 / 2 < z + 1) :
    roundTo n x = (z : ℚ) / 10 ^ n := by
  unfold roundTo
  rw [round_eq, Int.floor_eq_iff.mpr ⟨hle, hlt⟩]

/-- A value exactly representable with `n` decimals is unchanged by `roundTo n`. -/
theorem roundTo_eq_self (n : ℕ) (x : ℚ) (z : ℤ) (h : x * 10 ^ n = (z : ℚ)) :
    roundTo n x = x := by
  have hp : (0 : ℚ) < 10 ^ n := by positivity
  unfold roundTo
  rw [h, round_intCast]
  field_simp at h ⊢
  linarith [h]

/-- Rounding via `roundTo n` moves a value by at most half an ulp, `1/(2·10^n)`. -/
theorem abs_roundTo_sub (n : ℕ) (x : ℚ) : |roundTo n x - x| ≤ 1 / (2 * 10 ^ n) := by
  have hp : (0 : ℚ) < 10 ^ n := by positivity
  have h := abs_sub_round (x * 10 ^ n)
  rw [abs_sub_comm] at h
  unfold roundTo
  have key : ((round (x * 10 ^ n) : ℤ) : ℚ) / 10 ^ n - x
      = (((round (x * 10 ^ n) : ℤ) : ℚ) - x * 10 ^ n) / 10 ^ n := by
    field_simp
    ring
  rw [key, abs_div, abs_of_pos hp]
  rw [div_le_div_iff₀ hp (by positivity)]
  calc |((round (x * 10 ^ n) : ℤ) : ℚ) - x * 10 ^ n| * (2 * 10 ^ n)
      ≤ (1 / 2) * (2 * 10 ^ n) := by
        apply mul_le_mul_of_nonneg_right h (by positivity)
    _ = 1 * 10 ^ n := by ring

/-- Rounding via `roundTo n` is monotone. -/
theorem roundTo_mono (n : ℕ) {x y : ℚ} (h : x ≤ y) : roundTo n x ≤ roundTo n y := by
  have hp : (0 : ℚ) < 10 ^ n := by positivity
  unfold roundTo
  have hr : round (x * 10 ^ n) ≤ round (y * 10 ^ n) := by
    rw [round_eq, round_eq]
    apply Int.floor_le_floor
    have := mul_le_mul_of_nonneg_right h hp.le
    linarith
  have hr' : ((round (x * 10 ^ n) : ℤ) : ℚ) ≤ ((round (y * 10 ^ n) : ℤ) : ℚ) := by
    exact_mod_cast hr
  gcongr

/-- On inputs passing every defensive guard, the server engine returns the
assembled result. -/
theorem estimateMaterials_ok_of_valid (i : EstimationInput) (h : ValidInput i) :
    estimateMaterials i = .ok (assembleResult i) := by
  obtain ⟨h1, h2, h3, h4, h5, h6, h7⟩ := h
  have g1 : ¬ i.volumeM3 ≤ 0 := not_le.mpr h1
  have g2 : ¬ (i.mixRatio.cement ≤ 0 ∨ i.mixRatio.sand ≤ 0 ∨ i.mixRatio.agg ≤ 0) := by
    push_neg
    exact ⟨h2, h3, h4⟩
  have g3 : ¬ ((densitiesOf i).cement ≤ 0 ∨ (densitiesOf i).sand ≤ 0 ∨ (densitiesOf i).agg ≤ 0) := by
    push_neg
    exact ⟨h5, h6, h7⟩
  unfold estimateMaterials
  rw [if_neg g1, if_neg g2, if_neg g3]

/-- On inputs with positive volume and mix parts, the client engine returns the
assembled result (it does not inspect densities). -/
theorem clientEstimateMaterials_ok (i : EstimationInput) (h1 : 0 < i.volumeM3)
    (h2 : 0 < i.mixRatio.cement) (h3 : 0 < i.mixRatio.sand) (h4 : 0 < i.mixRatio.agg) :
    clientEstimateMaterials i = .ok (assembleResult i) := by
  have g1 : ¬ i.volumeM3 ≤ 0 := not_le.mpr h1
  have g2 : ¬ (i.mixRatio.cement ≤ 0 ∨ i.mixRatio.sand ≤ 0 ∨ i.mixRatio.agg ≤ 0) := by
    push_neg
    exact ⟨h2, h3, h4⟩
  unfold clientEstimateMaterials
  rw [if_neg g1, if_neg g2]

/-- C1: on the input {volumeM3: 100, mixRatio: 1:2:4, densities: 1440/1600/1750,
dryFactor: 1.54, wastageFactor: 5} the server engine returns exactly 22 m³ /
33264 kg / 666 bags / 33.264 t of cement, 44 m³ / 73920 kg / 73.920 t of sand,
88 m³ / 161700 kg / 161.700 t of aggregate, with totals.volume 154 m³ and
totals.mass 268884 kg. -/
theorem C1_end_to_end_example :
    estimateMaterials exampleInput = .ok
      { cement := { volume := 22, mass := 33264, bags := some 666, tonnes := 33264 / 1000 }
      , sand := { volume := 44, mass := 73920, bags := none, tonnes := 7392 / 100 }
      , aggregate := { volume := 88, mass := 161700, bags := none, tonnes := 1617 / 10 }
      , totals := { volume := 154, mass := 268884, estimatedCost := 160155 / 10 }
      , parameters := exampleInput } := by
  have hok := estimateMaterials_ok_of_valid exampleInput (by
    refine ⟨?_, ?_, ?_, ?_, ?_, ?_, ?_⟩ <;> norm_num [exampleInput, densitiesOf])
  have hS : totalParts exampleInput = 7 := by norm_num [totalParts, exampleInput]
  have hA : adjustedVolume exampleInput = 154 := by
    norm_num [adjustedVolume, dryFactorOf, exampleInput]
  have hcv : cementVolume exampleInput = 22 := by
    rw [cementVolume, hS, hA]
    norm_num [exampleInput]
  have hsv : sandVolume exampleInput = 44 := by
    rw [sandVolume, hS, hA]
    norm_num [exampleInput]
  have hav : aggVolume exampleInput = 88 := by
    rw [aggVolume, hS, hA]
    norm_num [exampleInput]
  have hwm : wastageMultiplier exampleInput = 105 / 100 := by
    norm_num [wastageMultiplier, wastageFactorOf, exampleInput]
  have hcm : cementMassWithWastage exampleInput = 33264 := by
    rw [cementMassWithWastage, cementMass, hcv, hwm]
    norm_num [densitiesOf, exampleInput]
  have hsm : sandMassWithWastage exampleInput = 73920 := by
    rw [sandMassWithWastage, sandMass, hsv, hwm]
    norm_num [densitiesOf, exampleInput]
  have ham : aggMassWithWastage exampleInput = 161700 := by
    rw [aggMassWithWastage, aggMass, hav, hwm]
    norm_num [densitiesOf, exampleInput]
  have hbags : cementBags exampleInput = 666 := by
    rw [cementBags, hcm]
    refine Int.ceil_eq_iff.mpr ⟨?_, ?_⟩ <;> norm_num
  have hct : cementTonnes exampleInput = 33264 / 1000 := by rw [cementTonnes, hcm]
  have hst : sandTonnes exampleInput = 7392 / 100 := by
    rw [sandTonnes, hsm]
    norm_num
  have hat : aggTonnes exampleInput = 1617 / 10 := by
    rw [aggTonnes, ham]
    norm_num
  have hcost : totalCost exampleInput = 160155 / 10 := by
    rw [totalCost, cementCost, sandCost, aggCost, hbags, hst, hat]
    norm_num [DEFAULT_MATERIAL_COSTS]
  have hsum : (33264 : ℚ) + 73920 + 161700 = 268884 := by norm_num
  rw [hok]
  congr 1
  simp only [assembleResult, hcv, hsv, hav, hA, hcm, hsm, ham, hbags, hct, hst, hat, hcost, hsum]
  rw [roundTo_eq_self 6 22 22000000 (by norm_num),
    roundTo_eq_self 6 44 44000000 (by norm_num),
    roundTo_eq_self 6 88 88000000 (by norm_num),
    roundTo_eq_self 6 154 154000000 (by norm_num),
    roundTo_eq_self 2 33264 3326400 (by norm_num),
    roundTo_eq_self 2 73920 7392000 (by norm_num),
    roundTo_eq_self 2 161700 16170000 (by norm_num),
    roundTo_eq_self 2 268884 26888400 (by norm_num),
    roundTo_eq_self 3 (33264 / 1000) 33264 (by norm_num),
    roundTo_eq_self 3 (7392 / 100) 73920 (by norm_num),
    roundTo_eq_self 3 (1617 / 10) 161700 (by norm_num),
    roundTo_eq_self 2 (160155 / 10) 1601550 (by norm_num)]

/-- The worked example input passes every defensive guard. -/
theorem exampleInput_valid : ValidInput exampleInput := by
  refine ⟨?_, ?_, ?_, ?_, ?_, ?_, ?_⟩ <;> norm_num [exampleInput, densitiesOf]

/-- The one-bag boundary input passes every defensive guard. -/
theorem boundaryInput_valid : ValidInput boundaryInput := by
  refine ⟨?_, ?_, ?_, ?_, ?_, ?_, ?_⟩ <;> norm_num [boundaryInput, densitiesOf]

/-- The zero-wastage probe input passes every defensive guard. -/
theorem wInputA_valid : ValidInput wInputA := by
  refine ⟨?_, ?_, ?_, ?_, ?_, ?_, ?_⟩ <;> norm_num [wInputA, densitiesOf]

/-- The 0.1%-wastage probe input passes every defensive guard. -/
theorem wInputB_valid : ValidInput wInputB := by
  refine ⟨?_, ?_, ?_, ?_, ?_, ?_, ?_⟩ <;> norm_num [wInputB, densitiesOf]

/-- C2 counterexample: on an input whose supplied cement density is -1 the
server engine raises InvalidInput while the client preview returns a result,
so the two implementations do not behave identically. -/
theorem C2_counterexample :
    clientEstimateMaterials divergingInput ≠ estimateMaterials divergingInput := by
  have g1 : ¬ divergingInput.volumeM3 ≤ 0 := by norm_num [divergingInput]
  have g2 : ¬ (divergingInput.mixRatio.cement ≤ 0 ∨ divergingInput.mixRatio.sand ≤ 0 ∨
      divergingInput.mixRatio.agg ≤ 0) := by
    push_neg
    refine ⟨?_, ?_, ?_⟩ <;> norm_num [divergingInput]
  have g3 : (densitiesOf divergingInput).cement ≤ 0 ∨ (densitiesOf divergingInput).sand ≤ 0 ∨
      (densitiesOf divergingInput).agg ≤ 0 :=
    Or.inl (by norm_num [densitiesOf, divergingInput])
  have hs : estimateMaterials divergingInput = .error "All densities must be greater than 0" := by
    unfold estimateMaterials
    rw [if_neg g1, if_neg g2, if_pos g3]
  have hc : clientEstimateMaterials divergingInput = .ok (assembleResult divergingInput) := by
    apply clientEstimateMaterials_ok <;> norm_num [divergingInput]
  rw [hs, hc]
  exact fun h => Except.noConfusion h

/-- C2 amended: on every input whose effective densities (supplied or defaulted)
are all positive, the client preview and the server engine return identical
results and fail in identical cases; they diverge only on inputs with a
non-positive supplied density, which the server rejects and the client accepts. -/
theorem C2_client_server_agree (i : EstimationInput)
    (h5 : 0 < (densitiesOf i).cement) (h6 : 0 < (densitiesOf i).sand)
    (h7 : 0 < (densitiesOf i).agg) :
    clientEstimateMaterials i = estimateMaterials i := by
  have g3 : ¬ ((densitiesOf i).cement ≤ 0 ∨ (densitiesOf i).sand ≤ 0 ∨
      (densitiesOf i).agg ≤ 0) := by
    push_neg
    exact ⟨h5, h6, h7⟩
  unfold clientEstimateMaterials estimateMaterials
  by_cases g1 : i.volumeM3 ≤ 0
  · rw [if_pos g1, if_pos g1]
  · by_cases g2 : i.mixRatio.cement ≤ 0 ∨ i.mixRatio.sand ≤ 0 ∨ i.mixRatio.agg ≤ 0
    · rw [if_neg g1, if_neg g1, if_pos g2, if_pos g2]
    · rw [if_neg g1, if_neg g1, if_neg g2, if_neg g2, if_neg g3]

/-- C2 witness: the two implementations agree on the worked example input. -/
theorem C2_client_server_agree_witness :
    clientEstimateMaterials exampleInput = estimateMaterials exampleInput :=
  C2_client_server_agree exampleInput
    (by norm_num [densitiesOf, exampleInput])
    (by norm_num [densitiesOf, exampleInput])
    (by norm_num [densitiesOf, exampleInput])

/-- C3 counterexample: the client `estimateMaterials` returns a result on an
input whose supplied cement density is 0, so the claimed "error iff some
density ≤ 0" fails for the client implementation. -/
theorem C3_counterexample :
    (densitiesOf clientDensityInput).cement ≤ 0 ∧
    clientEstimateMaterials clientDensityInput = .ok (assembleResult clientDensityInput) := by
  constructor
  · norm_num [densitiesOf, clientDensityInput]
  · apply clientEstimateMaterials_ok <;> norm_num [clientDensityInput]

/-- C3 amended: the server engine errors exactly when volume ≤ 0, some mix part
≤ 0, or some effective density ≤ 0, and otherwise returns a result; the client
engine errors exactly when volume ≤ 0 or some mix part ≤ 0 (it never checks
densities). -/
theorem C3_error_iff (i : EstimationInput) :
    ((∃ e, estimateMaterials i = Except.error e) ↔
      i.volumeM3 ≤ 0 ∨ (i.mixRatio.cement ≤ 0 ∨ i.mixRatio.sand ≤ 0 ∨ i.mixRatio.agg ≤ 0) ∨
        ((densitiesOf i).cement ≤ 0 ∨ (densitiesOf i).sand ≤ 0 ∨ (densitiesOf i).agg ≤ 0)) ∧
    ((∃ e, clientEstimateMaterials i = Except.error e) ↔
      i.volumeM3 ≤ 0 ∨ (i.mixRatio.cement ≤ 0 ∨ i.mixRatio.sand ≤ 0 ∨ i.mixRatio.agg ≤ 0)) := by
  constructor
  · unfold estimateMaterials
    split_ifs with a b c <;> simp_all
  · unfold clientEstimateMaterials
    split_ifs with a b <;> simp_all

/-- Changing only the wastage factor leaves every reported volume unchanged:
the four volume fields are computed before wastage is applied. -/
theorem wastage_irrelevant_to_volumes (i : EstimationInput) (w : ℚ) :
    (assembleResult { i with wastageFactor := some w }).totals.volume
        = (assembleResult i).totals.volume ∧
    (assembleResult { i with wastageFactor := some w }).cement.volume
        = (assembleResult i).cement.volume ∧
    (assembleResult { i with wastageFactor := some w }).sand.volume
        = (assembleResult i).sand.volume ∧
    (assembleResult { i with wastageFactor := some w }).aggregate.volume
        = (assembleResult i).aggregate.volume := by
  refine ⟨?_, ?_, ?_, ?_⟩
  · rw [show (assembleResult { i with wastageFactor := some w }).totals.volume
        = roundTo 6 (adjustedVolume { i with wastageFactor := some w }) from rfl,
      show adjustedVolume { i with wastageFactor := some w } = adjustedVolume i from rfl,
      show (assembleResult i).totals.volume = roundTo 6 (adjustedVolume i) from rfl]
  · rw [show (assembleResult { i with wastageFactor := some w }).cement.volume
        = roundTo 6 (cementVolume { i with wastageFactor := some w }) from rfl,
      show cementVolume { i with wastageFactor := some w } = cementVolume i from rfl,
      show (assembleResult i).cement.volume = roundTo 6 (cementVolume i) from rfl]
  · rw [show (assembleResult { i with wastageFactor := some w }).sand.volume
        = roundTo 6 (sandVolume { i with wastageFactor := some w }) from rfl,
      show sandVolume { i with wastageFactor := some w } = sandVolume i from rfl,
      show (assembleResult i).sand.volume = roundTo 6 (sandVolume i) from rfl]
  · rw [show (assembleResult { i with wastageFactor := some w }).aggregate.volume
        = roundTo 6 (aggVolume { i with wastageFactor := some w }) from rfl,
      show aggVolume { i with wastageFactor := some w } = aggVolume i from rfl,
      show (assembleResult i).aggregate.volume = roundTo 6 (aggVolume i) from rfl]

/-- C4: for every input passing the defensive guards, the reported
`totals.volume` is `volumeM3 × dryFactor` up to the 6-decimal output rounding
(within 1e-6), and changing the wastage factor changes neither `totals.volume`
nor any per-material volume. -/
theorem C4_totals_volume (i : EstimationInput) (h : ValidInput i) :
    ∃ r, estimateMaterials i = .ok r ∧
      |r.totals.volume - i.volumeM3 * dryFactorOf i| ≤ 1 / 10 ^ 6 ∧
      ∀ w : ℚ, ∃ r', estimateMaterials { i with wastageFactor := some w } = .ok r' ∧
        r'.totals.volume = r.totals.volume ∧
        r'.cement.volume = r.cement.volume ∧
        r'.sand.volume = r.sand.volume ∧
        r'.aggregate.volume = r.aggregate.volume := by
  refine ⟨assembleResult i, estimateMaterials_ok_of_valid i h, ?_, ?_⟩
  · have hb := abs_roundTo_sub 6 (adjustedVolume i)
    have he : (assembleResult i).totals.volume - i.volumeM3 * dryFactorOf i
        = roundTo 6 (adjustedVolume i) - adjustedVolume i := rfl
    rw [he]
    calc |roundTo 6 (adjustedVolume i) - adjustedVolume i|
        ≤ 1 / (2 * 10 ^ 6) := hb
      _ ≤ 1 / 10 ^ 6 := by norm_num
  · intro w
    obtain ⟨e1, e2, e3, e4⟩ := wastage_irrelevant_to_volumes i w
    exact ⟨assembleResult { i with wastageFactor := some w },
      estimateMaterials_ok_of_valid _ h, e1, e2, e3, e4⟩

/-- C4 witness: instantiation at the worked example input. -/
theorem C4_totals_volume_witness :
    ∃ r, estimateMaterials exampleInput = .ok r ∧
      |r.totals.volume - exampleInput.volumeM3 * dryFactorOf exampleInput| ≤ 1 / 10 ^ 6 ∧
      ∀ w : ℚ, ∃ r', estimateMaterials { exampleInput with wastageFactor := some w } = .ok r' ∧
        r'.totals.volume = r.totals.volume ∧
        r'.cement.volume = r.cement.volume ∧
        r'.sand.volume = r.sand.volume ∧
        r'.aggregate.volume = r.aggregate.volume :=
  C4_totals_volume exampleInput exampleInput_valid

/-- C5: the three raw per-material volumes partition the adjusted volume
exactly in rational arithmetic, and the reported (6-decimal rounded) volumes
sum to the reported total volume within 2e-6. -/
theorem C5_partition (i : EstimationInput) (h : ValidInput i) :
    cementVolume i + sandVolume i + aggVolume i = adjustedVolume i ∧
    ∃ r, estimateMaterials i = .ok r ∧
      |r.cement.volume + r.sand.volume + r.aggregate.volume - r.totals.volume| ≤ 2 / 10 ^ 6 := by
  have hS : 0 < totalParts i := by
    obtain ⟨-, h2, h3, h4, -, -, -⟩ := h
    unfold totalParts
    linarith
  have hS' : i.mixRatio.cement + i.mixRatio.sand + i.mixRatio.agg ≠ 0 := by
    unfold totalParts at hS
    exact ne_of_gt hS
  have hpart : cementVolume i + sandVolume i + aggVolume i = adjustedVolume i := by
    unfold cementVolume sandVolume aggVolume totalParts
    field_simp
    ring
  refine ⟨hpart, assembleResult i, estimateMaterials_ok_of_valid i h, ?_⟩
  have b1 := abs_roundTo_sub 6 (cementVolume i)
  have b2 := abs_roundTo_sub 6 (sandVolume i)
  have b3 := abs_roundTo_sub 6 (aggVolume i)
  have b4 := abs_roundTo_sub 6 (adjustedVolume i)
  rw [abs_le] at b1 b2 b3 b4
  rw [show (assembleResult i).cement.volume = roundTo 6 (cementVolume i) from rfl,
    show (assembleResult i).sand.volume = roundTo 6 (sandVolume i) from rfl,
    show (assembleResult i).aggregate.volume = roundTo 6 (aggVolume i) from rfl,
    show (assembleResult i).totals.volume = roundTo 6 (adjustedVolume i) from rfl]
  rw [abs_le]
  constructor <;>
    linarith [b1.1, b1.2, b2.1, b2.2, b3.1, b3.2, b4.1, b4.2, hpart]

/-- C5 witness: instantiation at the worked example input. -/
theorem C5_partition_witness :
    cementVolume exampleInput + sandVolume exampleInput + aggVolume exampleInput
      = adjustedVolume exampleInput ∧
    ∃ r, estimateMaterials exampleInput = .ok r ∧
      |r.cement.volume + r.sand.volume + r.aggregate.volume - r.totals.volume| ≤ 2 / 10 ^ 6 :=
  C5_partition exampleInput exampleInput_valid

/-- C6: for every guarded input the returned cement bag count is
`ceil(cementMassWithWastage / 50)`; a wastage-inclusive cement mass of exactly
`50·k` kg yields exactly `k` bags, and a mass of `50·k + 0.001` kg yields
`k + 1` bags. -/
theorem C6_bags_ceil (i : EstimationInput) (h : ValidInput i) (k : ℤ) :
    ∃ r, estimateMaterials i = .ok r ∧
      r.cement.bags = some ⌈cementMassWithWastage i / 50⌉ ∧
      (cementMassWithWastage i = 50 * (k : ℚ) → r.cement.bags = some k) ∧
      (cementMassWithWastage i = 50 * (k : ℚ) + 1 / 1000 → r.cement.bags = some (k + 1)) := by
  refine ⟨assembleResult i, estimateMaterials_ok_of_valid i h, rfl, ?_, ?_⟩
  · intro hm
    show some (cementBags i) = some k
    congr 1
    unfold cementBags
    rw [hm]
    rw [show (50 : ℚ) * (k : ℚ) / 50 = (k : ℚ) by field_simp]
    exact Int.ceil_intCast k
  · intro hm
    show some (cementBags i) = some (k + 1)
    congr 1
    unfold cementBags
    rw [hm]
    rw [show ((50 : ℚ) * (k : ℚ) + 1 / 1000) / 50 = 1 / 50000 + (k : ℚ) by ring]
    rw [Int.ceil_add_int]
    have hc : ⌈(1 / 50000 : ℚ)⌉ = 1 := by
      refine Int.ceil_eq_iff.mpr ⟨?_, ?_⟩ <;> norm_num
    omega

/-- C6 witness: on `boundaryInput` the wastage-inclusive cement mass is exactly
50 kg and the engine yields exactly one bag. -/
theorem C6_bags_ceil_witness :
    (∃ r, estimateMaterials boundaryInput = .ok r ∧
      r.cement.bags = some ⌈cementMassWithWastage boundaryInput / 50⌉ ∧
      (cementMassWithWastage boundaryInput = 50 * ((1 : ℤ) : ℚ) → r.cement.bags = some 1) ∧
      (cementMassWithWastage boundaryInput = 50 * ((1 : ℤ) : ℚ) + 1 / 1000 →
        r.cement.bags = some (1 + 1))) ∧
    cementMassWithWastage boundaryInput = 50 * ((1 : ℤ) : ℚ) := by
  refine ⟨C6_bags_ceil boundaryInput boundaryInput_valid 1, ?_⟩
  norm_num [cementMassWithWastage, cementMass, cementVolume, totalParts, adjustedVolume,
    dryFactorOf, densitiesOf, wastageMultiplier, wastageFactorOf, boundaryInput]

/-- C7 counterexample: raising the wastage factor from 0% to 0.1% leaves the
reported cement mass unchanged (1.00 kg both times, because masses are rounded
to two decimals on output), so the reported mass does not strictly increase. -/
theorem C7_counterexample :
    wastageFactorOf wInputA < wastageFactorOf wInputB ∧
    estimateMaterials wInputA = .ok (assembleResult wInputA) ∧
    estimateMaterials wInputB = .ok (assembleResult wInputB) ∧
    (assembleResult wInputA).cement.mass = (assembleResult wInputB).cement.mass := by
  refine ⟨by norm_num [wastageFactorOf, wInputA, wInputB],
    estimateMaterials_ok_of_valid _ wInputA_valid,
    estimateMaterials_ok_of_valid _ wInputB_valid, ?_⟩
  have ha : cementMassWithWastage wInputA = 1 := by
    norm_num [cementMassWithWastage, cementMass, cementVolume, totalParts, adjustedVolume,
      dryFactorOf, densitiesOf, wastageMultiplier, wastageFactorOf, wInputA]
  have hb : cementMassWithWastage wInputB = 1001 / 1000 := by
    norm_num [cementMassWithWastage, cementMass, cementVolume, totalParts, adjustedVolume,
      dryFactorOf, densitiesOf, wastageMultiplier, wastageFactorOf, wInputB]
  rw [show (assembleResult wInputA).cement.mass = roundTo 2 (cementMassWithWastage wInputA)
      from rfl,
    show (assembleResult wInputB).cement.mass = roundTo 2 (cementMassWithWastage wInputB)
      from rfl,
    ha, hb, roundTo_eq_self 2 1 100 (by norm_num),
    roundTo_eq_div 2 (1001 / 1000) 100 (by norm_num) (by norm_num)]
  norm_num

/-- C7 amended: increasing the wastage factor strictly increases every raw
(pre-rounding) material mass and tonnage; the reported rounded masses and
tonnages never decrease, and the cement bag count never decreases. -/
theorem C7_wastage_monotonicity (i : EstimationInput) (h : ValidInput i)
    (hd : 0 < dryFactorOf i) (w1 w2 : ℚ) (hw : w1 < w2) :
    cementMassWithWastage { i with wastageFactor := some w1 }
      < cementMassWithWastage { i with wastageFactor := some w2 } ∧
    sandMassWithWastage { i with wastageFactor := some w1 }
      < sandMassWithWastage { i with wastageFactor := some w2 } ∧
    aggMassWithWastage { i with wastageFactor := some w1 }
      < aggMassWithWastage { i with wastageFactor := some w2 } ∧
    cementTonnes { i with wastageFactor := some w1 }
      < cementTonnes { i with wastageFactor := some w2 } ∧
    sandTonnes { i with wastageFactor := some w1 }
      < sandTonnes { i with wastageFactor := some w2 } ∧
    aggTonnes { i with wastageFactor := some w1 }
      < aggTonnes { i with wastageFactor := some w2 } ∧
    cementBags { i with wastageFactor := some w1 }
      ≤ cementBags { i with wastageFactor := some w2 } ∧
    ∃ r1 r2, estimateMaterials { i with wastageFactor := some w1 } = .ok r1 ∧
      estimateMaterials { i with wastageFactor := some w2 } = .ok r2 ∧
      r1.cement.mass ≤ r2.cement.mass ∧
      r1.sand.mass ≤ r2.sand.mass ∧
      r1.aggregate.mass ≤ r2.aggregate.mass ∧
      r1.cement.tonnes ≤ r2.cement.tonnes ∧
      r1.sand.tonnes ≤ r2.sand.tonnes ∧
      r1.aggregate.tonnes ≤ r2.aggregate.tonnes ∧
      r1.cement.bags = some (cementBags { i with wastageFactor := some w1 }) ∧
      r2.cement.bags = some (cementBags { i with wastageFactor := some w2 }) := by
  obtain ⟨h1, h2, h3, h4, h5, h6, h7⟩ := h
  have hS : 0 < totalParts i := by
    unfold totalParts
    linarith
  have hcv : 0 < cementVolume i := by
    unfold cementVolume adjustedVolume
    exact mul_pos (div_pos h2 hS) (mul_pos h1 hd)
  have hsv : 0 < sandVolume i := by
    unfold sandVolume adjustedVolume
    exact mul_pos (div_pos h3 hS) (mul_pos h1 hd)
  have hav : 0 < aggVolume i := by
    unfold aggVolume adjustedVolume
    exact mul_pos (div_pos h4 hS) (mul_pos h1 hd)
  have hcm0 : 0 < cementMass i := by
    unfold cementMass
    exact mul_pos hcv h5
  have hsm0 : 0 < sandMass i := by
    unfold sandMass
    exact mul_pos hsv h6
  have ham0 : 0 < aggMass i := by
    unfold aggMass
    exact mul_pos hav h7
  have ec1 : cementMassWithWastage { i with wastageFactor := some w1 }
      = cementMass i * (1 + w1 / 100) := rfl
  have ec2 : cementMassWithWastage { i with wastageFactor := some w2 }
      = cementMass i * (1 + w2 / 100) := rfl
  have es1 : sandMassWithWastage { i with wastageFactor := some w1 }
      = sandMass i * (1 + w1 / 100) := rfl
  have es2 : sandMassWithWastage { i with wastageFactor := some w2 }
      = sandMass i * (1 + w2 / 100) := rfl
  have ea1 : aggMassWithWastage { i with wastageFactor := some w1 }
      = aggMass i * (1 + w1 / 100) := rfl
  have ea2 : aggMassWithWastage { i with wastageFactor := some w2 }
      = aggMass i * (1 + w2 / 100) := rfl
  have hmul : (1 : ℚ) + w1 / 100 < 1 + w2 / 100 := by linarith
  have hmc : cementMassWithWastage { i with wastageFactor := some w1 }
      < cementMassWithWastage { i with wastageFactor := some w2 } := by
    rw [ec1, ec2]
    exact mul_lt_mul_of_pos_left hmul hcm0
  have hms : sandMassWithWastage { i with wastageFactor := some w1 }
      < sandMassWithWastage { i with wastageFactor := some w2 } := by
    rw [es1, es2]
    exact mul_lt_mul_of_pos_left hmul hsm0
  have hma : aggMassWithWastage { i with wastageFactor := some w1 }
      < aggMassWithWastage { i with wastageFactor := some w2 } := by
    rw [ea1, ea2]
    exact mul_lt_mul_of_pos_left hmul ham0
  have htc : cementTonnes { i with wastageFactor := some w1 }
      < cementTonnes { i with wastageFactor := some w2 } := by
    unfold cementTonnes
    linarith [hmc]
  have hts : sandTonnes { i with wastageFactor := some w1 }
      < sandTonnes { i with wastageFactor := some w2 } := by
    unfold sandTonnes
    linarith [hms]
  have hta : aggTonnes { i with wastageFactor := some w1 }
      < aggTonnes { i with wastageFactor := some w2 } := by
    unfold aggTonnes
    linarith [hma]
  have hbags : cementBags { i with wastageFactor := some w1 }
      ≤ cementBags { i with wastageFactor := some w2 } := by
    unfold cementBags
    exact Int.ceil_le_ceil (by linarith [hmc])
  refine ⟨hmc, hms, hma, htc, hts, hta, hbags,
    assembleResult { i with wastageFactor := some w1 },
    assembleResult { i with wastageFactor := some w2 },
    estimateMaterials_ok_of_valid _ ⟨h1, h2, h3, h4, h5, h6, h7⟩,
    estimateMaterials_ok_of_valid _ ⟨h1, h2, h3, h4, h5, h6, h7⟩,
    ?_, ?_, ?_, ?_, ?_, ?_, rfl, rfl⟩
  · rw [show (assembleResult { i with wastageFactor := some w1 }).cement.mass
        = roundTo 2 (cementMassWithWastage { i with wastageFactor := some w1 }) from rfl,
      show (assembleResult { i with wastageFactor := some w2 }).cement.mass
        = roundTo 2 (cementMassWithWastage { i with wastageFactor := some w2 }) from rfl]
    exact roundTo_mono 2 (le_of_lt hmc)
  · rw [show (assembleResult { i with wastageFactor := some w1 }).sand.mass
        = roundTo 2 (sandMassWithWastage { i with wastageFactor := some w1 }) from rfl,
      show (assembleResult { i with wastageFactor := some w2 }).sand.mass
        = roundTo 2 (sandMassWithWastage { i with wastageFactor := some w2 }) from rfl]
    exact roundTo_mono 2 (le_of_lt hms)
  · rw [show (assembleResult { i with wastageFactor := some w1 }).aggregate.mass
        = roundTo 2 (aggMassWithWastage { i with wastageFactor := some w1 }) from rfl,
      show (assembleResult { i with wastageFactor := some w2 }).aggregate.mass
        = roundTo 2 (aggMassWithWastage { i with wastageFactor := some w2 }) from rfl]
    exact roundTo_mono 2 (le_of_lt hma)
  · rw [show (assembleResult { i with wastageFactor := some w1 }).cement.tonnes
        = roundTo 3 (cementTonnes { i with wastageFactor := some w1 }) from rfl,
      show (assembleResult { i with wastageFactor := some w2 }).cement.tonnes
        = roundTo 3 (cementTonnes { i with wastageFactor := some w2 }) from rfl]
    exact roundTo_mono 3 (le_of_lt htc)
  · rw [show (assembleResult { i with wastageFactor := some w1 }).sand.tonnes
        = roundTo 3 (sandTonnes { i with wastageFactor := some w1 }) from rfl,
      show (assembleResult { i with wastageFactor := some w2 }).sand.tonnes
        = roundTo 3 (sandTonnes { i with wastageFactor := some w2 }) from rfl]
    exact roundTo_mono 3 (le_of_lt hts)
  · rw [show (assembleResult { i with wastageFactor := some w1 }).aggregate.tonnes
        = roundTo 3 (aggTonnes { i with wastageFactor := some w1 }) from rfl,
      show (assembleResult { i with wastageFactor := some w2 }).aggregate.tonnes
        = roundTo 3 (aggTonnes { i with wastageFactor := some w2 }) from rfl]
    exact roundTo_mono 3 (le_of_lt hta)

/-- C7 witness: instantiation at the worked example input with wastage factors
5% and 10%. -/
theorem C7_wastage_monotonicity_witness :
    cementMassWithWastage { exampleInput with wastageFactor := some 5 }
      < cementMassWithWastage { exampleInput with wastageFactor := some 10 } ∧
    sandMassWithWastage { exampleInput with wastageFactor := some 5 }
      < sandMassWithWastage { exampleInput with wastageFactor := some 10 } ∧
    aggMassWithWastage { exampleInput with wastageFactor := some 5 }
      < aggMassWithWastage { exampleInput with wastageFactor := some 10 } ∧
    cementTonnes { exampleInput with wastageFactor := some 5 }
      < cementTonnes { exampleInput with wastageFactor := some 10 } ∧
    sandTonnes { exampleInput with wastageFactor := some 5 }
      < sandTonnes { exampleInput with wastageFactor := some 10 } ∧
    aggTonnes { exampleInput with wastageFactor := some 5 }
      < aggTonnes { exampleInput with wastageFactor := some 10 } ∧
    cementBags { exampleInput with wastageFactor := some 5 }
      ≤ cementBags { exampleInput with wastageFactor := some 10 } ∧
    ∃ r1 r2, estimateMaterials { exampleInput with wastageFactor := some 5 } = .ok r1 ∧
      estimateMaterials { exampleInput with wastageFactor := some 10 } = .ok r2 ∧
      r1.cement.mass ≤ r2.cement.mass ∧
      r1.sand.mass ≤ r2.sand.mass ∧
      r1.aggregate.mass ≤ r2.aggregate.mass ∧
      r1.cement.tonnes ≤ r2.cement.tonnes ∧
      r1.sand.tonnes ≤ r2.sand.tonnes ∧
      r1.aggregate.tonnes ≤ r2.aggregate.tonnes ∧
      r1.cement.bags = some (cementBags { exampleInput with wastageFactor := some 5 }) ∧
      r2.cement.bags = some (cementBags { exampleInput with wastageFactor := some 10 }) :=
  C7_wastage_monotonicity exampleInput exampleInput_valid
    (by norm_num [dryFactorOf, exampleInput]) 5 10 (by norm_num)

/-- C8: contrary to the claim, a supplied value of exactly 0 for a density or
for the dry factor produces no validation error: the truthiness guards
`cement && cement <= 0` and `dryFactor && (...)` skip the falsy value 0, so
`validateEstimationInput` returns no errors at all on `c8Input`, even though
the engine itself rejects the same density with an InvalidInput error. -/
theorem C8_truthiness_gap :
    validateEstimationInput c8Input = [] ∧
    estimateMaterials c8EngineInput = .error "All densities must be greater than 0" := by
  constructor
  · norm_num [validateEstimationInput, c8Input]
  · have g1 : ¬ c8EngineInput.volumeM3 ≤ 0 := by norm_num [c8EngineInput]
    have g2 : ¬ (c8EngineInput.mixRatio.cement ≤ 0 ∨ c8EngineInput.mixRatio.sand ≤ 0 ∨
        c8EngineInput.mixRatio.agg ≤ 0) := by
      push_neg
      refine ⟨?_, ?_, ?_⟩ <;> norm_num [c8EngineInput]
    have g3 : (densitiesOf c8EngineInput).cement ≤ 0 ∨ (densitiesOf c8EngineInput).sand ≤ 0 ∨
        (densitiesOf c8EngineInput).agg ≤ 0 :=
      Or.inl (by norm_num [densitiesOf, c8EngineInput])
    unfold estimateMaterials
    rw [if_neg g1, if_neg g2, if_pos g3]

/-- C9: the preset registry maps "C20/25" to the mix ratio 1:2:4 exactly, every
call returns the same table (so mutating one call's returned value cannot
change what a later call returns — each call is a fresh literal), and the
client registry coincides with the server registry. -/
theorem C9_preset_registry :
    (getPresetMixRatios ()).lookup "C20/25" = some { cement := 1, sand := 2, agg := 4 } ∧
    (∀ u v : Unit, getPresetMixRatios u = getPresetMixRatios v) ∧
    (∀ u v : Unit, clientGetPresetMixRatios u = clientGetPresetMixRatios v) ∧
    (∀ u : Unit, clientGetPresetMixRatios u = getPresetMixRatios u) :=
  ⟨rfl, fun _ _ => rfl, fun _ _ => rfl, fun _ => rfl⟩

/-- C10: for every guarded input the raw estimated cost is the fixed-table
linear combination bags·10 + sandTonnes·50 + aggTonnes·35, and the reported
`totals.estimatedCost` is its 2-decimal rounding; `estimateMaterials` takes no
cost parameter, so the table is the same for every call. -/
theorem C10_cost_formula (i : EstimationInput) (h : ValidInput i) :
    totalCost i = (cementBags i : ℚ) * 10 + sandTonnes i * 50 + aggTonnes i * 35 ∧
    DEFAULT_MATERIAL_COSTS = { cement := 10, sand := 50, agg := 35 } ∧
    ∃ r, estimateMaterials i = .ok r ∧
      r.totals.estimatedCost
        = roundTo 2 ((cementBags i : ℚ) * 10 + sandTonnes i * 50 + aggTonnes i * 35) := by
  have hform : totalCost i = (cementBags i : ℚ) * 10 + sandTonnes i * 50 + aggTonnes i * 35 := by
    simp [totalCost, cementCost, sandCost, aggCost, DEFAULT_MATERIAL_COSTS]
  refine ⟨hform, rfl, assembleResult i, estimateMaterials_ok_of_valid i h, ?_⟩
  rw [show (assembleResult i).totals.estimatedCost = roundTo 2 (totalCost i) from rfl, hform]

/-- C10 witness: instantiation at the worked example input. -/
theorem C10_cost_formula_witness :
    totalCost exampleInput = (cementBags exampleInput : ℚ) * 10
      + sandTonnes exampleInput * 50 + aggTonnes exampleInput * 35 ∧
    DEFAULT_MATERIAL_COSTS = { cement := 10, sand := 50, agg := 35 } ∧
    ∃ r, estimateMaterials exampleInput = .ok r ∧
      r.totals.estimatedCost
        = roundTo 2 ((cementBags exampleInput : ℚ) * 10
          + sandTonnes exampleInput * 50 + aggTonnes exampleInput * 35) :=
  C10_cost_formula exampleInput exampleInput_valid
